import Mathlib

/-!
Verification of the oracle request-execution layer against its specification.

The definitions below are a shallow embedding of the TypeScript sources:
src/oracle/run.ts (runOracle, executeBackgroundResponse, pollBackgroundResponse,
retrieveBackgroundResponseWithRetry, asRetryableTransportError), the model
configuration (config.ts), the declared model-name types (types.ts), and the
multi-model session runner (sessionRunner.ts).  Asynchronous effects are made
explicit: the backend client is represented by traces of outcomes, and the
clock advances only at the explicit wait points of the source, mirroring the
injected now/wait dependency pair.
-/

/-- Transport failure taxonomy from types.ts: TransportFailureReason. -/
inductive TransportFailureReason
  | clientTimeout
  | connectionLost
  | clientAbort
  | unknownReason
  deriving DecidableEq, Repr

/-- Error taxonomy of errors.ts as raised by run.ts: PromptValidationError,
OracleTransportError (with its classified reason), OracleResponseError
(carrying the offending response, when one exists), and plain errors. -/
inductive OracleError
  | promptValidation (message : String)
  | transport (reason : TransportFailureReason) (message : String)
  | responseFailure (message : String)
  | plainFailure (message : String)
  deriving DecidableEq, Repr

/-- Raw usage block of an API response (types.ts: OracleResponse.usage);
every field may be omitted by the backend. -/
structure UsageRaw where
  input_tokens : Option Nat
  output_tokens : Option Nat
  reasoning_tokens : Option Nat
  total_tokens : Option Nat
  deriving DecidableEq, Repr

/-- Nested error info of an API response (types.ts: error field). -/
structure ResponseErrorInfo where
  message : Option String
  deriving DecidableEq, Repr

/-- Nested incomplete details of an API response (types.ts). -/
structure IncompleteDetails where
  reason : Option String
  deriving DecidableEq, Repr

/-- API response shape used by run.ts (types.ts: OracleResponse), restricted
to the fields the execution layer inspects. -/
structure OracleResponse where
  id : Option String
  status : Option String
  error : Option ResponseErrorInfo
  incomplete_details : Option IncompleteDetails
  usage : Option UsageRaw
  deriving DecidableEq, Repr

/-- A response with every optional field absent, for building test inputs. -/
def OracleResponse.empty : OracleResponse :=
  { id := none, status := none, error := none, incomplete_details := none, usage := none }

/-- JavaScript truthiness of an optional string: null, undefined and the empty
string are falsy.  Used where the source tests a string with if (!x) or x || y. -/
def jsTruthy : Option String → Bool
  | none => false
  | some s => s ≠ ""

/-- JavaScript expression a || b where a is an optional string: returns b
unless a is present and non-empty. -/
def jsOrString (a : Option String) (b : String) : String :=
  match a with
  | some s => if s = "" then b else s
  | none => b

-- Timing constants of run.ts (lines 43 to 49), all in milliseconds.

def BACKGROUND_MAX_WAIT_MS : Nat := 30 * 60 * 1000

def BACKGROUND_POLL_INTERVAL_MS : Nat := 5000

def BACKGROUND_RETRY_BASE_MS : Nat := 3000

def BACKGROUND_RETRY_MAX_MS : Nat := 15000

def DEFAULT_TIMEOUT_NON_PRO_MS : Nat := 120000

def DEFAULT_TIMEOUT_PRO_MS : Nat := 60 * 60 * 1000

/-- An error raised by a backend client call, according to its JavaScript
class: an OracleTransportError, one of the openai connection error classes
(APIConnectionError or APIConnectionTimeoutError, the timeout flag telling
the two apart), or any other thrown value. -/
inductive ThrownError
  | oracleTransport (reason : TransportFailureReason) (message : String)
  | apiConnection (timedOut : Bool) (message : String)
  | otherThrown (e : OracleError)
  deriving DecidableEq, Repr

/-- Classifier of errors.ts (toTransportError) restricted to the openai
connection errors that asRetryableTransportError feeds it: a connection
timeout maps to client-timeout, a plain connection loss to connection-lost. -/
def toTransportErrorReason (timedOut : Bool) : TransportFailureReason :=
  if timedOut then .clientTimeout else .connectionLost

/-- run.ts lines 699 to 707: asRetryableTransportError.  An
OracleTransportError is returned as is; an APIConnectionError or
APIConnectionTimeoutError is converted through toTransportError; anything
else yields null (not retryable). -/
def asRetryableTransportError : ThrownError → Option (TransportFailureReason × String)
  | .oracleTransport reason message => some (reason, message)
  | .apiConnection timedOut message => some (toTransportErrorReason timedOut, message)
  | .otherThrown _ => none

/-- The error value an unretried ThrownError propagates as (the source
rethrows the original error object). -/
def ThrownError.toOracleError : ThrownError → OracleError
  | .oracleTransport reason message => .transport reason message
  | .apiConnection timedOut message => .transport (toTransportErrorReason timedOut) message
  | .otherThrown e => e

/-- One behaviour of the backend client on a responses.retrieve call: either
a response is returned or an error is raised. -/
inductive RetrieveOutcome
  | ok (resp : OracleResponse)
  | raised (e : ThrownError)
  deriving DecidableEq, Repr

/-- Result of one invocation of retrieveBackgroundResponseWithRetry: the
backoff delays waited (in order), the clock after the call (milliseconds
since startMark), and either the retrieved response together with the
reconnected flag, or the propagated error. -/
structure RetrieveRetryResult where
  delays : List Nat
  elapsedAfter : Nat
  result : Except OracleError (OracleResponse × Bool)
  deriving Repr

/-- run.ts lines 673 to 697, loop body of retrieveBackgroundResponseWithRetry.
The outcomes list is the trace of what responses.retrieve does on successive
attempts; elapsed is now() minus startMark, advanced only by wait(delay);
retries is the local attempt counter (0 at entry).  Returns none when the
trace is exhausted before the loop settles (the real loop would keep calling
retrieve). -/
def retrieveRetryGo (maxWaitMs : Nat) :
    Nat → Nat → List RetrieveOutcome → Option RetrieveRetryResult
  | _, _, [] => none
  | elapsed, retries, .ok resp :: _ =>
    some { delays := [], elapsedAfter := elapsed, result := .ok (resp, decide (retries > 0)) }
  | elapsed, retries, .raised e :: rest =>
    match asRetryableTransportError e with
    | none => some { delays := [], elapsedAfter := elapsed, result := .error e.toOracleError }
    | some _ =>
      let retries1 := retries + 1
      let delay := min (BACKGROUND_RETRY_BASE_MS * 2 ^ (retries1 - 1)) BACKGROUND_RETRY_MAX_MS
      let elapsed1 := elapsed + delay
      if maxWaitMs ≤ elapsed1 then
        some { delays := [delay], elapsedAfter := elapsed1,
               result := .error (.transport .clientTimeout
                 "Timed out waiting for API background response to finish.") }
      else
        match retrieveRetryGo maxWaitMs elapsed1 retries1 rest with
        | none => none
        | some r => some { delays := delay :: r.delays, elapsedAfter := r.elapsedAfter,
                           result := r.result }

/-- run.ts line 673: retrieveBackgroundResponseWithRetry enters its loop with
a fresh attempt counter of zero. -/
def retrieveBackgroundResponseWithRetry (maxWaitMs elapsed : Nat)
    (outcomes : List RetrieveOutcome) : Option RetrieveRetryResult :=
  retrieveRetryGo maxWaitMs elapsed 0 outcomes

/-- The delay the source computes for the Nth consecutive retry (N counted
from 1): min of base times 2 to the N minus 1 and the cap. -/
def nthRetryDelay (n : Nat) : Nat :=
  min (BACKGROUND_RETRY_BASE_MS * 2 ^ (n - 1)) BACKGROUND_RETRY_MAX_MS

/-- Total backoff time of the first n retries. -/
def retryDelaysTotal (n : Nat) : Nat :=
  ((List.range n).map (fun i => nthRetryDelay (i + 1))).sum

/-- Detail string of a response-level failure, run.ts lines 414 and 635: the
JavaScript chain error message or incomplete reason or raw status. -/
def responseFailureDetail (resp : OracleResponse) (status : String) : String :=
  jsOrString (resp.error.bind ResponseErrorInfo.message)
    (jsOrString (resp.incomplete_details.bind IncompleteDetails.reason) status)

/-- Result of pollBackgroundResponse: how many poll cycles invoked the
retrieve-with-retry helper, the backoff delays each of those invocations
waited (one inner list per cycle, in order), the clock at the end
(milliseconds since startMark), and the outcome. -/
structure PollResult where
  retrievals : Nat
  retryDelays : List (List Nat)
  elapsedAfter : Nat
  result : Except OracleError OracleResponse
  deriving Repr

/-- run.ts lines 613 to 661: pollBackgroundResponse.  The state is the
current response and the clock (now() minus startMark, advanced only by
wait); the trace lists, for each poll cycle, the outcomes the client produces
for that cycle's retrieveBackgroundResponseWithRetry call.  Returns none when
the trace runs out before the loop settles. -/
def pollBackgroundResponse (maxWaitMs : Nat) :
    Nat → OracleResponse → List (List RetrieveOutcome) → Option PollResult
  | elapsed, response, trace =>
    let status := (response.status).getD "completed"
    if status = "completed" then
      some { retrievals := 0, retryDelays := [], elapsedAfter := elapsed, result := .ok response }
    else if status ≠ "in_progress" ∧ status ≠ "queued" then
      some { retrievals := 0, retryDelays := [], elapsedAfter := elapsed,
             result := .error (.responseFailure
               ("Response did not complete: " ++ responseFailureDetail response status)) }
    else if maxWaitMs ≤ elapsed then
      some { retrievals := 0, retryDelays := [], elapsedAfter := elapsed,
             result := .error (.transport .clientTimeout
               "Timed out waiting for API background response to finish.") }
    else
      let elapsed1 := elapsed + BACKGROUND_POLL_INTERVAL_MS
      if maxWaitMs ≤ elapsed1 then
        some { retrievals := 0, retryDelays := [], elapsedAfter := elapsed1,
               result := .error (.transport .clientTimeout
                 "Timed out waiting for API background response to finish.") }
      else
        match trace with
        | [] => none
        | cycle :: rest =>
          match retrieveBackgroundResponseWithRetry maxWaitMs elapsed1 cycle with
          | none => none
          | some rr =>
            match rr.result with
            | .error e =>
              some { retrievals := 1, retryDelays := [rr.delays],
                     elapsedAfter := rr.elapsedAfter, result := .error e }
            | .ok (next, _reconnected) =>
              match pollBackgroundResponse maxWaitMs rr.elapsedAfter next rest with
              | none => none
              | some pr =>
                some { retrievals := pr.retrievals + 1, retryDelays := rr.delays :: pr.retryDelays,
                       elapsedAfter := pr.elapsedAfter, result := pr.result }

/-- run.ts lines 552 to 601: executeBackgroundResponse.  The createResult is
what client.responses.create returned (none models a null or undefined
response); a missing or empty id fails immediately with a response-level
error, otherwise completion waiting is delegated to pollBackgroundResponse
with the same clock origin. -/
def executeBackgroundResponse (maxWaitMs : Nat) (createResult : Option OracleResponse)
    (trace : List (List RetrieveOutcome)) : Option PollResult :=
  match createResult with
  | none =>
    some { retrievals := 0, retryDelays := [], elapsedAfter := 0,
           result := .error (.responseFailure
             "API did not return a response ID for the background run.") }
  | some initialResponse =>
    if jsTruthy initialResponse.id then
      pollBackgroundResponse maxWaitMs 0 initialResponse trace
    else
      some { retrievals := 0, retryDelays := [], elapsedAfter := 0,
             result := .error (.responseFailure
               "API did not return a response ID for the background run.") }

/-- Per-token pricing of a model (config.ts: ModelConfig.pricing). -/
structure Pricing where
  inputPerToken : ℚ
  outputPerToken : ℚ
  deriving DecidableEq, Repr

/-- Model configuration entry (config.ts: ModelConfig), restricted to the
fields the execution layer reads. -/
structure ModelConfig where
  model : String
  inputLimit : Nat
  pricing : Option Pricing
  reasoningEffort : Option String
  deriving DecidableEq, Repr

/-- config.ts: PRO_MODELS, the set of models treated as long-running
pro-tier. -/
def PRO_MODELS : List String := ["gpt-5.1-pro", "gpt-5.0-pro"]

/-- config.ts: MODEL_CONFIGS, keyed by model name. -/
def MODEL_CONFIGS : List (String × ModelConfig) :=
  [ ("gpt-5.1-pro",
     { model := "gpt-5.1-pro", inputLimit := 196000,
       pricing := some { inputPerToken := 15 / 1000000, outputPerToken := 120 / 1000000 },
       reasoningEffort := none }),
    ("gpt-5.0-pro",
     { model := "gpt-5.0-pro", inputLimit := 196000,
       pricing := some { inputPerToken := 15 / 1000000, outputPerToken := 120 / 1000000 },
       reasoningEffort := none }),
    ("gpt-5.1",
     { model := "gpt-5.1", inputLimit := 196000,
       pricing := some { inputPerToken := 125 / 100000000, outputPerToken := 10 / 1000000 },
       reasoningEffort := some "high" }),
    ("gpt-5.1-codex",
     { model := "gpt-5.1-codex", inputLimit := 196000,
       pricing := some { inputPerToken := 125 / 100000000, outputPerToken := 10 / 1000000 },
       reasoningEffort := some "high" }),
    ("gemini-3-pro",
     { model := "gemini-3-pro", inputLimit := 200000,
       pricing := some { inputPerToken := 2 / 1000000, outputPerToken := 12 / 1000000 },
       reasoningEffort := none }) ]

/-- types.ts lines 3 to 10: the publicly declared ModelName union. -/
def declaredModelNames : List String :=
  ["gpt-5.1-pro", "gpt-5-pro", "gpt-5.1", "gpt-5.1-codex", "gemini-3-pro",
   "claude-4.5-sonnet", "claude-4.1-opus"]

/-- types.ts line 12: the publicly declared ProModelName union. -/
def declaredProModelNames : List String :=
  ["gpt-5.1-pro", "gpt-5-pro", "claude-4.5-sonnet", "claude-4.1-opus"]

/-- The credential environment visible to runOracle, plus the parsed
ORACLE_MIN_PROMPT_CHARS value (none models a NaN parse; the source default
string is 20). -/
structure EnvKeys where
  openaiKey : Option String
  geminiKey : Option String
  anthropicKey : Option String
  minPromptChars : Option Nat
  deriving Repr

/-- Fields of RunOracleOptions that the validation and dispatch logic of
runOracle reads (types.ts: RunOracleOptions). -/
structure RunOracleOptions where
  prompt : String
  model : String
  apiKey : Option String
  maxInput : Option Nat
  background : Option Bool
  timeoutSeconds : Option Nat
  preview : Bool
  deriving Repr

/-- JavaScript String.prototype.startsWith, modelled at the character-list
level so it stays computable in proofs. -/
def jsStartsWith (s p : String) : Bool :=
  p.data.isPrefixOf s.data

/-- JavaScript String.prototype.trim removes leading and trailing
whitespace; modelled at the character-list level so it stays computable in
proofs.  Only the trimmed length is ever used by run.ts. -/
def isJsWhitespace (c : Char) : Bool :=
  c = ' ' ∨ c = '\t' ∨ c = '\n' ∨ c = '\r'

/-- Length of a string after trimming, run.ts line 105: prompt.trim().length. -/
def trimmedLength (s : String) : Nat :=
  ((s.data.dropWhile isJsWhitespace).reverse.dropWhile isJsWhitespace).length

/-- run.ts lines 79 to 90: getApiKeyForModel resolves the credential by
model-name prefix, preferring an explicitly passed key over the
corresponding environment variable. -/
def getApiKeyForModel (optionsApiKey : Option String) (env : EnvKeys) (model : String) :
    Option String :=
  if jsStartsWith model "gpt" then optionsApiKey <|> env.openaiKey
  else if jsStartsWith model "gemini" then optionsApiKey <|> env.geminiKey
  else if jsStartsWith model "claude" then optionsApiKey <|> env.anthropicKey
  else none

/-- run.ts lines 92 to 96: the environment-variable name blamed in the
missing-credential message. -/
def envVarForModel (model : String) : String :=
  if jsStartsWith model "gpt" then "OPENAI_API_KEY"
  else if jsStartsWith model "gemini" then "GEMINI_API_KEY"
  else "ANTHROPIC_API_KEY"

/-- run.ts lines 104 to 108: the pro-tier short-prompt guard fires when the
parsed ORACLE_MIN_PROMPT_CHARS is a number (not NaN) and the trimmed prompt
is shorter. -/
def shortPromptGuard (env : EnvKeys) (promptLength : Nat) : Bool :=
  match env.minPromptChars with
  | none => false
  | some n => decide (promptLength < n)

/-- Observable backend-facing effects of one runOracle invocation, in order:
constructing the client (run.ts line 265) and dispatching the request
(line 312 background, line 323 streaming). -/
inductive RunEffect
  | constructClient
  | dispatchBackground
  | dispatchStream
  deriving DecidableEq, Repr

/-- The values runOracle has settled on once validation passes. -/
structure RunSetup where
  useBackground : Bool
  timeoutMs : Nat
  inputTokenBudget : Nat
  estimatedInputTokens : Nat
  isPreview : Bool
  deriving DecidableEq, Repr

/-- run.ts lines 56 to 286, the validation and dispatch-decision phase of
runOracle, up to and including client construction and dispatch.  Checks run
in source order: credential resolution (97), pro-tier short-prompt guard
(108), model-config lookup (116), input-token budget (228), preview
short-circuit (237), then client construction and dispatch.  The estimated
token count is a parameter because estimateRequestTokens lives outside this
layer.  The returned effect list records which backend-facing actions were
performed. -/
def runOracleSetupPhase (opts : RunOracleOptions) (env : EnvKeys)
    (estimatedInputTokens : Nat) : List RunEffect × Except OracleError RunSetup :=
  let apiKey := getApiKeyForModel opts.apiKey env opts.model
  if ¬ jsTruthy apiKey then
    ([], .error (.promptValidation
      ("Missing " ++ envVarForModel opts.model ++ ". Set it via the environment or a .env file.")))
  else
    let isProTierModel := PRO_MODELS.contains opts.model
    let promptLength := trimmedLength opts.prompt
    if isProTierModel && shortPromptGuard env promptLength then
      ([], .error (.promptValidation
        "Prompt is too short. This was likely accidental; please provide more detail."))
    else
      match List.lookup opts.model MODEL_CONFIGS with
      | none =>
        ([], .error (.promptValidation ("Unsupported model " ++ opts.model ++ ".")))
      | some modelConfig =>
        let useBackground := opts.background.getD isProTierModel
        let inputTokenBudget := opts.maxInput.getD modelConfig.inputLimit
        let timeoutSeconds := opts.timeoutSeconds.getD
          (if isProTierModel then DEFAULT_TIMEOUT_PRO_MS / 1000 else DEFAULT_TIMEOUT_NON_PRO_MS / 1000)
        let timeoutMs := timeoutSeconds * 1000
        if estimatedInputTokens > inputTokenBudget then
          ([], .error (.promptValidation "Input too large for the input token limit."))
        else
          let setup : RunSetup :=
            { useBackground := useBackground, timeoutMs := timeoutMs,
              inputTokenBudget := inputTokenBudget,
              estimatedInputTokens := estimatedInputTokens, isPreview := opts.preview }
          if opts.preview then
            ([], .ok setup)
          else
            ([.constructClient, if useBackground then .dispatchBackground else .dispatchStream],
             .ok setup)

/-- run.ts line 293: timeoutExceeded, evaluated at clock value t against the
absolute origin runStart captured once at dispatch.  The source computes
now() minus runStart and compares with timeoutMs; in additive form the check
is runStart plus timeoutMs at most t. -/
def timeoutExceededAt (runStart timeoutMs t : Nat) : Bool :=
  runStart + timeoutMs ≤ t

/-- Timed trace of one synchronous streaming call: the clock values at which
each stream event is delivered, the clock when the iterator finishes, the
clock when finalResponse resolves, and the final response. -/
structure StreamTrace where
  eventTimes : List Nat
  endTime : Nat
  finalTime : Nat
  finalResp : OracleResponse
  deriving Repr

/-- run.ts lines 352 to 365: the for-await loop calls throwIfTimedOut as each
event arrives; this returns the clock value of the first event delivery at
which the deadline had expired, if any. -/
def firstExpiredEventTime (runStart timeoutMs : Nat) : List Nat → Option Nat
  | [] => none
  | t :: ts =>
    if timeoutExceededAt runStart timeoutMs t then some t
    else firstExpiredEventTime runStart timeoutMs ts

/-- run.ts lines 323 to 377, the synchronous streaming phase of runOracle:
throwIfTimedOut after each streamed event, again when the stream ends (line
366), and again after finalResponse resolves (line 375).  On expiry it
raises the client-timeout transport failure; the clock value at which the
raise happens is returned alongside.  The source message interpolates the
formatted deadline; the text is irrelevant to the properties proved here. -/
def runStreamingPhase (runStart timeoutMs : Nat) (tr : StreamTrace) :
    Except (OracleError × Nat) (OracleResponse × Nat) :=
  match firstExpiredEventTime runStart timeoutMs tr.eventTimes with
  | some t => .error (.transport .clientTimeout "Timed out waiting for API response.", t)
  | none =>
    if timeoutExceededAt runStart timeoutMs tr.endTime then
      .error (.transport .clientTimeout "Timed out waiting for API response.", tr.endTime)
    else if timeoutExceededAt runStart timeoutMs tr.finalTime then
      .error (.transport .clientTimeout "Timed out waiting for API response.", tr.finalTime)
    else
      .ok (tr.finalResp, tr.finalTime)

/-- Local constants of the grace poll, run.ts lines 399 and 400. -/
def GRACE_POLL_INTERVAL_MS : Nat := 2000

/-- run.ts line 400: the grace poll gives up after this much waiting. -/
def GRACE_POLL_MAX_WAIT_MS : Nat := 60000

/-- run.ts lines 403 to 410: the grace-poll loop.  While the grace clock is
under the cap it waits the fixed interval, retrieves, and replaces the
response only when the refreshed status is exactly completed.  The trace
lists successive retrieve results; the returned pair is the number of
retrieve calls made and the completed replacement, if one arrived. -/
def gracePollLoop : Nat → List OracleResponse → Option (Nat × Option OracleResponse)
  | t, trace =>
    if GRACE_POLL_MAX_WAIT_MS ≤ t then some (0, none)
    else
      match trace with
      | [] => none
      | refreshed :: rest =>
        if refreshed.status = some "completed" then some (1, some refreshed)
        else
          match gracePollLoop (t + GRACE_POLL_INTERVAL_MS) rest with
          | none => none
          | some (n, repl) => some (n + 1, repl)

/-- run.ts lines 395 to 422: handling of the backend status once the stream
has ended.  A falsy or completed status passes the response through
untouched.  Otherwise the grace poll runs only when the response has a
truthy id and the status is exactly in_progress; any remaining
non-completed status raises the response-level failure built from the
backend diagnostics.  Returns the number of retrieve calls made and the
outcome. -/
def handleStreamEndStatus (response : OracleResponse)
    (graceTrace : List OracleResponse) : Option (Nat × Except OracleError OracleResponse) :=
  if ¬ jsTruthy response.status ∨ response.status = some "completed" then
    some (0, .ok response)
  else
    let afterPoll :=
      if jsTruthy response.id ∧ response.status = some "in_progress" then
        match gracePollLoop 0 graceTrace with
        | none => none
        | some (n, repl) => some (n, repl.getD response)
      else some (0, response)
    match afterPoll with
    | none => none
    | some (n, resp2) =>
      if resp2.status = some "completed" then some (n, .ok resp2)
      else
        some (n, .error (.responseFailure
          ("Response did not complete: " ++ responseFailureDetail resp2 (resp2.status.getD ""))))

/-- Usage summary carried by every live result (types.ts: UsageSummary).
Cost is rational here; the source uses a float but every quantity involved
is finite. -/
structure UsageSummary where
  inputTokens : Nat
  outputTokens : Nat
  reasoningTokens : Nat
  totalTokens : Nat
  cost : Option ℚ
  deriving DecidableEq, Repr

/-- run.ts lines 441 to 449 and 490: the usage and cost computation of a
live run.  Each token count falls back when the backend omits the field:
input to the local estimate, output and reasoning to zero, total to the sum
of the other three; cost is computed only when the model config carries
pricing. -/
def computeUsageSummary (respUsage : Option UsageRaw) (estimatedInputTokens : Nat)
    (pricing : Option Pricing) : UsageSummary :=
  let usage := respUsage.getD { input_tokens := none, output_tokens := none,
                                reasoning_tokens := none, total_tokens := none }
  let inputTokens := usage.input_tokens.getD estimatedInputTokens
  let outputTokens := usage.output_tokens.getD 0
  let reasoningTokens := usage.reasoning_tokens.getD 0
  let totalTokens := usage.total_tokens.getD (inputTokens + outputTokens + reasoningTokens)
  let cost := pricing.map (fun p =>
    (inputTokens : ℚ) * p.inputPerToken + (outputTokens : ℚ) * p.outputPerToken)
  { inputTokens := inputTokens, outputTokens := outputTokens,
    reasoningTokens := reasoningTokens, totalTokens := totalTokens, cost := cost }

/-- Aggregate result of a multi-model run (spec section 3:
MultiModelRunSummary), carrying the per-model outcomes partitioned into
fulfilled and rejected; only the model identifiers and payloads the claims
inspect are kept. -/
structure MultiModelRunSummary where
  fulfilled : List (String × UsageSummary)
  rejected : List (String × OracleError)
  deriving Repr

/-- Modelled from the spec: the source file multiModelRunner.ts
(runMultiModelApiSession) is not part of the sources available here, only
its tests and its caller are.  Spec section 4.4: the orchestrator takes the
ordered model list deduplicated on entry, dispatches one executor invocation
per model, never lets one failure cancel the others, and partitions the
settled outcomes into fulfilled results and rejected reasons, the reason
being the raw failure.  The outcome function gives each model's settled
result. -/
def runMultiModelApiSession (models : List String)
    (outcome : String → Except OracleError UsageSummary) : MultiModelRunSummary :=
  let ms := models.dedup
  { fulfilled := ms.filterMap (fun m =>
      match outcome m with
      | .ok u => some (m, u)
      | .error _ => none),
    rejected := ms.filterMap (fun m =>
      match outcome m with
      | .ok _ => none
      | .error e => some (m, e)) }

/-- sessionRunner.ts (performSessionRun), multi-model branch: the ordered
session-level status writes and the rethrown failure.  The function writes
running at entry (line 59), then after the summary writes error when any
model was rejected and completed otherwise (lines 253 to 262); when a
failure exists the first rejected reason is rethrown (line 276), which the
catch block records with one more error write (lines 347 to 362) before
propagating. -/
def performSessionRunMulti (models : List String)
    (outcome : String → Except OracleError UsageSummary) :
    List String × Option OracleError :=
  let summary := runMultiModelApiSession models outcome
  let hasFailure := summary.rejected.length > 0
  let settledStatus := if hasFailure then "error" else "completed"
  if hasFailure then
    (["running", settledStatus, "error"], (summary.rejected.head?).map Prod.snd)
  else
    (["running", settledStatus], none)

/-- Options as a plain invocation produces them: background and timeout left
unset, a credential provided, a prompt long enough to pass the pro-tier
guard, no preview. -/
def defaultRunOptions (m : String) : RunOracleOptions :=
  { prompt := "explain the tradeoffs of this design in detail please",
    model := m, apiKey := some "key", maxInput := none, background := none,
    timeoutSeconds := none, preview := false }

/-- An environment with the default minimum prompt length and no keys set. -/
def defaultEnvKeys : EnvKeys :=
  { openaiKey := none, geminiKey := none, anthropicKey := none, minPromptChars := some 20 }

/-- C10: unless options.background is explicitly set, runOracle chooses
background execution with the 60 minute default timeout exactly for the
members of PRO_MODELS, namely gpt-5.1-pro and gpt-5.0-pro; among the
publicly declared model names only gpt-5.1-pro defaults to background,
because gpt-5.0-pro is not a declared name and the declared pro name
gpt-5-pro is not in PRO_MODELS; every other configured model defaults to
the synchronous streaming dispatch with the 120 second default timeout. -/
theorem useBackground_default_exactly_pro_models :
    (∀ (opts : RunOracleOptions) (env : EnvKeys) (est : Nat) (setup : RunSetup)
        (effects : List RunEffect),
      opts.background = none → opts.timeoutSeconds = none →
      runOracleSetupPhase opts env est = (effects, .ok setup) →
      setup.useBackground = PRO_MODELS.contains opts.model ∧
      setup.timeoutMs =
        (if PRO_MODELS.contains opts.model then DEFAULT_TIMEOUT_PRO_MS
         else DEFAULT_TIMEOUT_NON_PRO_MS)) ∧
    PRO_MODELS = ["gpt-5.1-pro", "gpt-5.0-pro"] ∧
    declaredModelNames.filter (fun m => PRO_MODELS.contains m) = ["gpt-5.1-pro"] ∧
    "gpt-5-pro" ∈ declaredModelNames ∧ "gpt-5-pro" ∈ declaredProModelNames ∧
    "gpt-5-pro" ∉ PRO_MODELS ∧ "gpt-5.0-pro" ∉ declaredModelNames ∧
    (runOracleSetupPhase (defaultRunOptions "gpt-5.1-pro") defaultEnvKeys 100).1 =
      [.constructClient, .dispatchBackground] ∧
    (runOracleSetupPhase (defaultRunOptions "gpt-5.0-pro") defaultEnvKeys 100).1 =
      [.constructClient, .dispatchBackground] ∧
    (runOracleSetupPhase (defaultRunOptions "gpt-5.1") defaultEnvKeys 100).1 =
      [.constructClient, .dispatchStream] ∧
    (runOracleSetupPhase (defaultRunOptions "gpt-5.1-codex") defaultEnvKeys 100).1 =
      [.constructClient, .dispatchStream] ∧
    (runOracleSetupPhase (defaultRunOptions "gemini-3-pro") defaultEnvKeys 100).1 =
      [.constructClient, .dispatchStream] := by
  refine ⟨?_, by decide, by decide, by decide, by decide, by decide, by decide,
    by decide, by decide, by decide, by decide, by decide⟩
  intro opts env est setup effects hbg hts h
  simp only [runOracleSetupPhase, hbg, hts, Option.getD_none, Option.getD_some] at h
  split at h
  · simp at h
  · split at h
    · simp at h
    · split at h
      · simp at h
      · split at h
        · simp at h
        · split at h <;>
          · rw [Prod.mk.injEq] at h
            obtain ⟨-, h2⟩ := h
            rw [Except.ok.injEq] at h2
            subst h2
            refine ⟨rfl, ?_⟩
            by_cases hp : PRO_MODELS.contains opts.model <;>
              simp [hp, DEFAULT_TIMEOUT_PRO_MS, DEFAULT_TIMEOUT_NON_PRO_MS]

/-- C10 witness: the general part of the theorem applied to a concrete
invocation of a non-pro model with background and timeout unset. -/
theorem useBackground_default_exactly_pro_models_witness :
    (runOracleSetupPhase (defaultRunOptions "gpt-5.1") defaultEnvKeys 100).2 =
      .ok { useBackground := false, timeoutMs := DEFAULT_TIMEOUT_NON_PRO_MS,
            inputTokenBudget := 196000, estimatedInputTokens := 100, isPreview := false } ∧
    ({ useBackground := false, timeoutMs := DEFAULT_TIMEOUT_NON_PRO_MS,
       inputTokenBudget := 196000, estimatedInputTokens := 100,
       isPreview := false : RunSetup }).useBackground =
      PRO_MODELS.contains (defaultRunOptions "gpt-5.1").model := by
  refine ⟨rfl, ?_⟩
  exact (useBackground_default_exactly_pro_models.1 (defaultRunOptions "gpt-5.1")
    defaultEnvKeys 100 _ [.constructClient, .dispatchStream] rfl rfl rfl).1

/-- C5: every usage summary of a live run has all four token counts defined,
with the documented fallbacks when the backend omits a field (input falls
back to the local estimate, output and reasoning to zero, total to the sum
of the other three), and the cost field is absent exactly when the model
has no pricing and otherwise equals inputTokens times inputPerToken plus
outputTokens times outputPerToken, a non-negative (and, being rational,
finite) number; every pricing in MODEL_CONFIGS has non-negative
components. -/
theorem usageSummary_total_and_cost (u : Option UsageRaw) (est : Nat) (p : Pricing)
    (hin : 0 ≤ p.inputPerToken) (hout : 0 ≤ p.outputPerToken) :
    (∀ pr : Option Pricing, ((computeUsageSummary u est pr).cost = none ↔ pr = none)) ∧
    (∀ c, (computeUsageSummary u est (some p)).cost = some c →
      c = ((computeUsageSummary u est (some p)).inputTokens : ℚ) * p.inputPerToken +
          ((computeUsageSummary u est (some p)).outputTokens : ℚ) * p.outputPerToken ∧
      0 ≤ c) ∧
    (∀ pr : Option Pricing, u = none →
      (computeUsageSummary u est pr).inputTokens = est ∧
      (computeUsageSummary u est pr).outputTokens = 0 ∧
      (computeUsageSummary u est pr).reasoningTokens = 0 ∧
      (computeUsageSummary u est pr).totalTokens = est) ∧
    (∀ pr : Option Pricing, ∀ w : UsageRaw, u = some w → w.total_tokens = none →
      (computeUsageSummary u est pr).totalTokens =
        (computeUsageSummary u est pr).inputTokens +
        (computeUsageSummary u est pr).outputTokens +
        (computeUsageSummary u est pr).reasoningTokens) ∧
    (∀ pr : Option Pricing, ∀ a b r t : Nat,
      u = some { input_tokens := some a, output_tokens := some b,
                 reasoning_tokens := some r, total_tokens := some t } →
      (computeUsageSummary u est pr).inputTokens = a ∧
      (computeUsageSummary u est pr).outputTokens = b ∧
      (computeUsageSummary u est pr).reasoningTokens = r ∧
      (computeUsageSummary u est pr).totalTokens = t) ∧
    (∀ kv ∈ MODEL_CONFIGS, ∀ q, kv.2.pricing = some q →
      (0 : ℚ) ≤ q.inputPerToken ∧ (0 : ℚ) ≤ q.outputPerToken) := by
  refine ⟨?_, ?_, ?_, ?_, ?_, ?_⟩
  · intro pr
    simp [computeUsageSummary, Option.map_eq_none]
  · intro c hc
    simp only [computeUsageSummary, Option.map] at hc ⊢
    rw [Option.some.injEq] at hc
    subst hc
    refine ⟨rfl, ?_⟩
    exact add_nonneg (mul_nonneg (Nat.cast_nonneg _) hin) (mul_nonneg (Nat.cast_nonneg _) hout)
  · intro pr hu
    subst hu
    simp [computeUsageSummary]
  · intro pr w hu ht
    subst hu
    simp [computeUsageSummary, ht]
  · intro pr a b r t hu
    subst hu
    simp [computeUsageSummary]
  · intro kv hkv q hq
    fin_cases hkv <;>
      · simp at hq
        subst hq
        constructor <;> norm_num

/-- C5 witness: a backend usage block reporting 10 input and 5 output tokens
under the gpt-5.1-pro pricing yields a present, non-negative cost equal to
the per-token formula. -/
theorem usageSummary_total_and_cost_witness :
    (computeUsageSummary
        (some { input_tokens := some 10, output_tokens := some 5,
                reasoning_tokens := none, total_tokens := none }) 3
        (some { inputPerToken := 15/1000000, outputPerToken := 120/1000000 })).cost =
      some (((10 : Nat) : ℚ) * (15/1000000) + ((5 : Nat) : ℚ) * (120/1000000)) ∧
    (0 : ℚ) ≤ ((10 : Nat) : ℚ) * (15/1000000) + ((5 : Nat) : ℚ) * (120/1000000) := by
  constructor
  · simp [computeUsageSummary]
  · exact ((usageSummary_total_and_cost
      (some { input_tokens := some 10, output_tokens := some 5,
              reasoning_tokens := none, total_tokens := none }) 3
      { inputPerToken := 15/1000000, outputPerToken := 120/1000000 }
      (by norm_num) (by norm_num)).2.1 _ (by simp [computeUsageSummary])).2

/-- C8: on the background path, a missing create response, or a create
response whose id is absent or empty, fails immediately with a
response-level error; no poll cycle runs (zero retrievals, no time passes)
and a response-level error is not retryable. -/
theorem executeBackground_missing_id_fails_immediately :
    (∀ (maxW : Nat) (trace : List (List RetrieveOutcome)),
      executeBackgroundResponse maxW none trace =
        some { retrievals := 0, retryDelays := [], elapsedAfter := 0,
               result := .error (.responseFailure
                 "API did not return a response ID for the background run.") }) ∧
    (∀ (maxW : Nat) (trace : List (List RetrieveOutcome)) (r : OracleResponse),
      jsTruthy r.id = false →
      executeBackgroundResponse maxW (some r) trace =
        some { retrievals := 0, retryDelays := [], elapsedAfter := 0,
               result := .error (.responseFailure
                 "API did not return a response ID for the background run.") }) ∧
    (∀ m, asRetryableTransportError (.otherThrown (.responseFailure m)) = none) := by
  refine ⟨fun maxW trace => rfl, ?_, fun m => rfl⟩
  intro maxW trace r h
  simp [executeBackgroundResponse, h]

/-- C8 witness: a create response carrying an empty id fails immediately with
no polling, even though a completed response was one retrieval away. -/
theorem executeBackground_missing_id_fails_immediately_witness :
    executeBackgroundResponse 1000000
        (some { OracleResponse.empty with
                id := some "", status := some "queued" })
        [[RetrieveOutcome.ok { OracleResponse.empty with status := some "completed" }]] =
      some { retrievals := 0, retryDelays := [], elapsedAfter := 0,
             result := .error (.responseFailure
               "API did not return a response ID for the background run.") } :=
  executeBackground_missing_id_fails_immediately.2.1 1000000
    [[RetrieveOutcome.ok { OracleResponse.empty with status := some "completed" }]]
    { OracleResponse.empty with id := some "", status := some "queued" } rfl

/-- C4: the background poller returns the response as soon as the observed
status is completed; an in_progress or queued status continues the loop
with the next retrieved response; any other status raises a response-level
failure whose detail is the backend error message, the incomplete reason,
or the raw status, with no further retrieval performed; and a
response-level failure is not retryable. -/
theorem pollBackground_status_dispatch :
    (∀ (maxW elapsed : Nat) (resp : OracleResponse) (trace : List (List RetrieveOutcome)),
      resp.status = some "completed" →
      pollBackgroundResponse maxW elapsed resp trace =
        some { retrievals := 0, retryDelays := [], elapsedAfter := elapsed,
               result := .ok resp }) ∧
    (∀ (maxW elapsed : Nat) (resp next : OracleResponse)
        (rest : List (List RetrieveOutcome)) (s : String),
      resp.status = some s → (s = "in_progress" ∨ s = "queued") →
      elapsed + BACKGROUND_POLL_INTERVAL_MS < maxW →
      pollBackgroundResponse maxW elapsed resp ([RetrieveOutcome.ok next] :: rest) =
        (pollBackgroundResponse maxW (elapsed + BACKGROUND_POLL_INTERVAL_MS) next rest).map
          (fun pr => { retrievals := pr.retrievals + 1, retryDelays := [] :: pr.retryDelays,
                       elapsedAfter := pr.elapsedAfter, result := pr.result })) ∧
    (∀ (maxW elapsed : Nat) (resp : OracleResponse)
        (trace : List (List RetrieveOutcome)) (s : String),
      resp.status = some s → s ≠ "completed" → s ≠ "in_progress" → s ≠ "queued" →
      pollBackgroundResponse maxW elapsed resp trace =
        some { retrievals := 0, retryDelays := [], elapsedAfter := elapsed,
               result := .error (.responseFailure
                 ("Response did not complete: " ++ responseFailureDetail resp s)) }) ∧
    (∀ m, asRetryableTransportError (.otherThrown (.responseFailure m)) = none) := by
  refine ⟨?_, ?_, ?_, fun m => rfl⟩
  · intro maxW elapsed resp trace h
    rw [pollBackgroundResponse]
    simp [h]
  · intro maxW elapsed resp next rest s h hs hb
    have hne : s ≠ "completed" := by
      rcases hs with rfl | rfl <;> decide
    conv => lhs; rw [pollBackgroundResponse]
    have hle1 : ¬ maxW ≤ elapsed := by omega
    have hle2 : ¬ maxW ≤ elapsed + BACKGROUND_POLL_INTERVAL_MS := by omega
    rcases hs with rfl | rfl <;>
      · simp [h, hne, hle1, hle2, retrieveBackgroundResponseWithRetry, retrieveRetryGo]
        cases pollBackgroundResponse maxW (elapsed + BACKGROUND_POLL_INTERVAL_MS) next rest <;> simp
  · intro maxW elapsed resp trace s h h1 h2 h3
    rw [pollBackgroundResponse]
    simp [h, h1, h2, h3]

/-- C4 witness: a backend status of failed with an error message raises the
response-level failure carrying that message, without any retrieval, even
though the trace had a completed response available. -/
theorem pollBackground_status_dispatch_witness :
    pollBackgroundResponse 1000000 7
        { OracleResponse.empty with
          status := some "failed",
          error := some { message := some "boom" } }
        [[RetrieveOutcome.ok { OracleResponse.empty with status := some "completed" }]] =
      some { retrievals := 0, retryDelays := [], elapsedAfter := 7,
             result := .error (.responseFailure "Response did not complete: boom") } := by
  have h := pollBackground_status_dispatch.2.2.1 1000000 7
    { OracleResponse.empty with
      status := some "failed",
      error := some { message := some "boom" } }
    [[RetrieveOutcome.ok { OracleResponse.empty with status := some "completed" }]]
    "failed" rfl (by decide) (by decide) (by decide)
  simpa [responseFailureDetail, jsOrString] using h

/-- Closed form of one retrieve-with-retry invocation on n consecutive
retryable failures followed by a success, for any starting value of the
attempt counter: the successive waits follow the exponential backoff
schedule and the success reports reconnected precisely when a retry
happened. -/
theorem retrieveRetryGo_replicate_ok (e : ThrownError) (resp : OracleResponse)
    (rs : TransportFailureReason × String) (hre : asRetryableTransportError e = some rs) :
    ∀ (n elapsed retries maxW : Nat),
      elapsed + ((List.range n).map (fun i => nthRetryDelay (retries + i + 1))).sum < maxW →
      retrieveRetryGo maxW elapsed retries (List.replicate n (.raised e) ++ [.ok resp]) =
        some { delays := (List.range n).map (fun i => nthRetryDelay (retries + i + 1)),
               elapsedAfter :=
                 elapsed + ((List.range n).map (fun i => nthRetryDelay (retries + i + 1))).sum,
               result := .ok (resp, decide (retries + n > 0)) } := by
  intro n
  induction n with
  | zero =>
    intro elapsed retries maxW h
    simp [retrieveRetryGo]
  | succ n ih =>
    intro elapsed retries maxW h
    have hshift :
        (List.range (n + 1)).map (fun i => nthRetryDelay (retries + i + 1)) =
          nthRetryDelay (retries + 1) ::
            (List.range n).map (fun i => nthRetryDelay (retries + 1 + i + 1)) := by
      rw [List.range_succ_eq_map, List.map_cons, List.map_map]
      refine congrArg₂ List.cons ?_ (List.map_congr_left ?_)
      · simp
      · intro i _
        simp only [Function.comp_apply]
        congr 1
        omega
    rw [hshift] at h ⊢
    rw [List.replicate_succ, List.cons_append]
    rw [retrieveRetryGo]
    simp only [hre]
    have hdelay : min (BACKGROUND_RETRY_BASE_MS * 2 ^ (retries + 1 - 1)) BACKGROUND_RETRY_MAX_MS =
        nthRetryDelay (retries + 1) := rfl
    simp only [List.sum_cons] at h
    have hlt : ¬ maxW ≤ elapsed + nthRetryDelay (retries + 1) := by omega
    simp only [hdelay, if_neg hlt]
    rw [ih (elapsed + nthRetryDelay (retries + 1)) (retries + 1) maxW (by omega)]
    have h1 : retries + 1 + n = retries + (n + 1) := by omega
    simp [List.sum_cons, Nat.add_assoc, h1]

/-- C2: within one retrieve-with-retry invocation the Nth consecutive
retryable failure waits exactly min of base times 2 to the N minus 1 and
the 15 second cap; the attempt counter is local to each invocation (the
poll loop enters with a fresh counter of zero after every successful
retrieval), so the first failure of any invocation waits the 3 second base
delay, as the two-cycle poll run in the last conjunct shows; a
non-retryable error propagates unchanged with no wait at all. -/
theorem backgroundRetry_exponential_backoff (n : Nat) (resp : OracleResponse)
    (e : ThrownError) (maxW elapsed : Nat) (rs : TransportFailureReason × String)
    (hre : asRetryableTransportError e = some rs)
    (h : elapsed + ((List.range n).map (fun i => nthRetryDelay (i + 1))).sum < maxW) :
    retrieveBackgroundResponseWithRetry maxW elapsed
        (List.replicate n (.raised e) ++ [.ok resp]) =
      some { delays := (List.range n).map (fun i => nthRetryDelay (i + 1)),
             elapsedAfter := elapsed + ((List.range n).map (fun i => nthRetryDelay (i + 1))).sum,
             result := .ok (resp, decide (n > 0)) } ∧
    (∀ N : Nat, nthRetryDelay N =
      min (BACKGROUND_RETRY_BASE_MS * 2 ^ (N - 1)) BACKGROUND_RETRY_MAX_MS) ∧
    (∀ (elapsed2 : Nat) (rest : List RetrieveOutcome) (r : RetrieveRetryResult),
      retrieveBackgroundResponseWithRetry maxW elapsed2 (.raised e :: rest) = some r →
      r.delays.head? = some BACKGROUND_RETRY_BASE_MS) ∧
    (∀ (elapsed2 : Nat) (err : OracleError) (rest : List RetrieveOutcome),
      retrieveBackgroundResponseWithRetry maxW elapsed2
          (.raised (.otherThrown err) :: rest) =
        some { delays := [], elapsedAfter := elapsed2, result := .error err }) ∧
    pollBackgroundResponse 10000000 0
        { OracleResponse.empty with status := some "in_progress" }
        [[.raised (.apiConnection false "conn"), .raised (.apiConnection false "conn"),
          .ok { OracleResponse.empty with status := some "in_progress" }],
         [.raised (.apiConnection false "conn"), .raised (.apiConnection false "conn"),
          .raised (.apiConnection false "conn"),
          .ok { OracleResponse.empty with status := some "completed" }]] =
      some { retrievals := 2, retryDelays := [[3000, 6000], [3000, 6000, 12000]],
             elapsedAfter := 40000,
             result := .ok { OracleResponse.empty with status := some "completed" } } := by
  have hmap : (List.range n).map (fun i => nthRetryDelay (0 + i + 1)) =
      (List.range n).map (fun i => nthRetryDelay (i + 1)) :=
    List.map_congr_left (fun i _ => by norm_num)
  refine ⟨?_, fun N => rfl, ?_, ?_, rfl⟩
  · have := retrieveRetryGo_replicate_ok e resp rs hre n elapsed 0 maxW (by rw [hmap]; exact h)
    rw [retrieveBackgroundResponseWithRetry, this, hmap]
    simp
  · intro elapsed2 rest r hr
    rw [retrieveBackgroundResponseWithRetry, retrieveRetryGo] at hr
    simp only [hre] at hr
    have hd : min (BACKGROUND_RETRY_BASE_MS * 2 ^ (0 + 1 - 1)) BACKGROUND_RETRY_MAX_MS =
        BACKGROUND_RETRY_BASE_MS := by
      norm_num [BACKGROUND_RETRY_BASE_MS, BACKGROUND_RETRY_MAX_MS]
    rw [hd] at hr
    split at hr
    · rw [Option.some.injEq] at hr
      subst hr
      rfl
    · split at hr
      · exact absurd hr (by simp)
      · rw [Option.some.injEq] at hr
        subst hr
        rfl
  · intro elapsed2 err rest
    rw [retrieveBackgroundResponseWithRetry, retrieveRetryGo]
    rfl

/-- C2 witness: four consecutive connection losses then a success produce
the delays 3000, 6000, 12000 and then the 15000 cap, with the reconnected
flag set. -/
theorem backgroundRetry_exponential_backoff_witness :
    retrieveBackgroundResponseWithRetry 1000000 0
        (List.replicate 4 (.raised (.apiConnection false "conn")) ++
          [.ok { OracleResponse.empty with status := some "completed" }]) =
      some { delays := [3000, 6000, 12000, 15000], elapsedAfter := 36000,
             result := .ok ({ OracleResponse.empty with status := some "completed" }, true) } :=
  (backgroundRetry_exponential_backoff 4
    { OracleResponse.empty with status := some "completed" }
    (.apiConnection false "conn") 1000000 0 (.connectionLost, "conn") rfl (by decide)).1

/-- The model-identifier multiset of the fulfilled and rejected partitions of
a list is a permutation of the list, whichever way each element settles. -/
theorem filterMap_ok_err_perm (outcome : String → Except OracleError UsageSummary) :
    ∀ ms : List String,
      ((ms.filterMap (fun m => match outcome m with
          | .ok u => some (m, u) | .error _ => none)).map Prod.fst ++
       (ms.filterMap (fun m => match outcome m with
          | .ok _ => none | .error e => some (m, e))).map Prod.fst).Perm ms := by
  intro ms
  induction ms with
  | nil => simp
  | cons m ms ih =>
    cases houtcome : outcome m with
    | ok u =>
      simp only [List.filterMap_cons, houtcome]
      simpa using ih.cons m
    | error e =>
      simp only [List.filterMap_cons, houtcome]
      simp only [List.map_cons]
      exact List.perm_middle.trans (ih.cons m)

/-- C1: for a deduplicated model list, every multi-model run summary
partitions the models exhaustively: the fulfilled and rejected counts add
up to the number of models, and the model identifiers of the two lists
taken together are exactly the input models, without duplicates. -/
theorem multiModel_partition_exhaustive (models : List String)
    (outcome : String → Except OracleError UsageSummary) (hnd : models.Nodup) :
    (runMultiModelApiSession models outcome).fulfilled.length +
      (runMultiModelApiSession models outcome).rejected.length = models.length ∧
    ((runMultiModelApiSession models outcome).fulfilled.map Prod.fst ++
      (runMultiModelApiSession models outcome).rejected.map Prod.fst).Perm models ∧
    ((runMultiModelApiSession models outcome).fulfilled.map Prod.fst ++
      (runMultiModelApiSession models outcome).rejected.map Prod.fst).Nodup := by
  have hd : models.dedup = models := List.dedup_eq_self.mpr hnd
  have hperm : ((runMultiModelApiSession models outcome).fulfilled.map Prod.fst ++
      (runMultiModelApiSession models outcome).rejected.map Prod.fst).Perm models := by
    unfold runMultiModelApiSession
    simp only [hd]
    exact filterMap_ok_err_perm outcome models
  refine ⟨?_, hperm, hperm.symm.nodup hnd⟩
  have hlen := hperm.length_eq
  simpa using hlen

/-- A placeholder usage summary for concrete run instances, mirroring the
successResult fixture of the multi-model runner tests. -/
def demoUsage : UsageSummary :=
  { inputTokens := 10, outputTokens := 5, reasoningTokens := 0, totalTokens := 15, cost := none }

/-- C1 witness: the three-model run of the test suite, in which exactly one
model is rejected, partitions 3 models into 2 fulfilled plus 1 rejected. -/
theorem multiModel_partition_exhaustive_witness :
    (runMultiModelApiSession ["gpt-5.1-pro", "gpt-5.1", "gemini-3-pro"]
        (fun m => if m = "gpt-5.1-pro"
          then .error (.responseFailure "The requested model does not exist.")
          else .ok demoUsage)).fulfilled.length +
      (runMultiModelApiSession ["gpt-5.1-pro", "gpt-5.1", "gemini-3-pro"]
        (fun m => if m = "gpt-5.1-pro"
          then .error (.responseFailure "The requested model does not exist.")
          else .ok demoUsage)).rejected.length = 3 :=
  (multiModel_partition_exhaustive ["gpt-5.1-pro", "gpt-5.1", "gemini-3-pro"]
    (fun m => if m = "gpt-5.1-pro"
      then .error (.responseFailure "The requested model does not exist.")
      else .ok demoUsage) (by decide)).1

/-- C9: the session-level status written last by the multi-model branch of
performSessionRun is error exactly when some model was rejected and
completed exactly when none was, rejection-freedom being equivalent to
every (deduplicated) model settling fulfilled; the concrete three-model run
in which exactly one model raises ends with the session in error. -/
theorem sessionRun_multi_final_status (models : List String)
    (outcome : String → Except OracleError UsageSummary) :
    ((performSessionRunMulti models outcome).1.getLast? = some "error" ↔
      (runMultiModelApiSession models outcome).rejected ≠ []) ∧
    ((performSessionRunMulti models outcome).1.getLast? = some "completed" ↔
      (runMultiModelApiSession models outcome).rejected = []) ∧
    ((runMultiModelApiSession models outcome).rejected = [] ↔
      ∀ m ∈ models.dedup, (outcome m).isOk) ∧
    (performSessionRunMulti ["gpt-5.1-pro", "gpt-5.1", "gemini-3-pro"]
        (fun m => if m = "gpt-5.1"
          then .error (.responseFailure "validation-shaped response error")
          else .ok demoUsage)).1 = ["running", "error", "error"] := by
  refine ⟨?_, ?_, ?_, by decide⟩
  · unfold performSessionRunMulti
    cases hrej : (runMultiModelApiSession models outcome).rejected <;> simp [hrej]
  · unfold performSessionRunMulti
    cases hrej : (runMultiModelApiSession models outcome).rejected <;> simp [hrej]
  · unfold runMultiModelApiSession
    simp only [List.filterMap_eq_nil_iff]
    constructor
    · intro hall m hm
      have := hall m hm
      cases houtcome : outcome m with
      | ok u => simp [Except.isOk, Except.toBool, houtcome]
      | error e =>
        rw [houtcome] at this
        simp at this
    · intro hall m hm
      cases houtcome : outcome m with
      | ok u => simp
      | error e =>
        have := hall m hm
        rw [houtcome] at this
        simp [Except.isOk, Except.toBool] at this

/-- C6: a missing credential for the requested model, and an estimated input
token count over the budget, each make runOracle raise a
PromptValidationError with an empty effect trace, so no client is
constructed and nothing is dispatched; indeed every prompt-validation
outcome of the setup phase has an empty effect trace, and a validation
error is never retryable. -/
theorem validation_before_dispatch (opts : RunOracleOptions) (env : EnvKeys) (est : Nat) :
    (jsTruthy (getApiKeyForModel opts.apiKey env opts.model) = false →
      runOracleSetupPhase opts env est =
        ([], .error (.promptValidation
          ("Missing " ++ envVarForModel opts.model ++
           ". Set it via the environment or a .env file.")))) ∧
    (∀ cfg : ModelConfig,
      jsTruthy (getApiKeyForModel opts.apiKey env opts.model) = true →
      (PRO_MODELS.contains opts.model &&
        shortPromptGuard env (trimmedLength opts.prompt)) = false →
      List.lookup opts.model MODEL_CONFIGS = some cfg →
      opts.maxInput.getD cfg.inputLimit < est →
      runOracleSetupPhase opts env est =
        ([], .error (.promptValidation "Input too large for the input token limit."))) ∧
    (∀ m, asRetryableTransportError (.otherThrown (.promptValidation m)) = none) ∧
    (∀ (effects : List RunEffect) (res : Except OracleError RunSetup) (msg : String),
      runOracleSetupPhase opts env est = (effects, res) →
      res = .error (.promptValidation msg) → effects = []) := by
  refine ⟨?_, ?_, fun m => rfl, ?_⟩
  · intro h
    simp [runOracleSetupPhase, h]
  · intro cfg h1 h2 h3 h4
    have h2a : ∀ hmem : opts.model ∈ PRO_MODELS,
        shortPromptGuard env (trimmedLength opts.prompt) = false := by
      intro hmem
      have hc : PRO_MODELS.contains opts.model = true := by simp [hmem]
      rw [hc, Bool.true_and] at h2
      exact h2
    simp [runOracleSetupPhase, h1, h2, h3, h4]
    exact h2a
  · intro effects res msg h hres
    subst hres
    simp only [runOracleSetupPhase] at h
    split at h
    · injection h with hE hR
      exact hE.symm
    · split at h
      · injection h with hE hR
        exact hE.symm
      · split at h
        · injection h with hE hR
          exact hE.symm
        · split at h
          · injection h with hE hR
            exact hE.symm
          · split at h <;>
            · injection h with hE hR
              simp at hR

/-- C6 witness: a gemini model without a gemini credential fails validation
blaming GEMINI_API_KEY, and a gpt-5.1 run whose estimate exceeds the
196000 token budget fails validation; both with empty effect traces. -/
theorem validation_before_dispatch_witness :
    runOracleSetupPhase { defaultRunOptions "gemini-3-pro" with apiKey := none }
        { openaiKey := some "k", geminiKey := none, anthropicKey := none,
          minPromptChars := some 20 } 100 =
      ([], .error (.promptValidation
        "Missing GEMINI_API_KEY. Set it via the environment or a .env file.")) ∧
    runOracleSetupPhase (defaultRunOptions "gpt-5.1") defaultEnvKeys 1000000 =
      ([], .error (.promptValidation "Input too large for the input token limit.")) :=
  ⟨(validation_before_dispatch { defaultRunOptions "gemini-3-pro" with apiKey := none }
      { openaiKey := some "k", geminiKey := none, anthropicKey := none,
        minPromptChars := some 20 } 100).1 rfl,
   (validation_before_dispatch (defaultRunOptions "gpt-5.1") defaultEnvKeys 1000000).2.1
     { model := "gpt-5.1", inputLimit := 196000,
       pricing := some { inputPerToken := 125 / 100000000, outputPerToken := 10 / 1000000 },
       reasoningEffort := some "high" }
     rfl (by decide) rfl (by decide)⟩

/-- Closed form of the grace-poll loop on k non-completed retrievals
followed by a completed one, within the 60 second cap: every retrieval is
consumed and the completed response is returned. -/
theorem gracePollLoop_replicate (other completed : OracleResponse)
    (hother : other.status ≠ some "completed") (hcomp : completed.status = some "completed") :
    ∀ (k t : Nat), t + GRACE_POLL_INTERVAL_MS * k < GRACE_POLL_MAX_WAIT_MS →
      gracePollLoop t (List.replicate k other ++ [completed]) = some (k + 1, some completed) := by
  intro k
  induction k with
  | zero =>
    intro t ht
    have h1 : ¬ GRACE_POLL_MAX_WAIT_MS ≤ t := by omega
    simp only [List.replicate_zero, List.nil_append]
    rw [gracePollLoop]
    simp [h1, hcomp]
  | succ k ih =>
    intro t ht
    have h1 : ¬ GRACE_POLL_MAX_WAIT_MS ≤ t := by
      have : GRACE_POLL_INTERVAL_MS * (k + 1) ≥ 0 := Nat.zero_le _
      omega
    rw [List.replicate_succ, List.cons_append]
    rw [gracePollLoop]
    simp only [h1, if_neg, hother]
    have := ih (t + GRACE_POLL_INTERVAL_MS) (by
      have : GRACE_POLL_INTERVAL_MS * (k + 1) =
          GRACE_POLL_INTERVAL_MS + GRACE_POLL_INTERVAL_MS * k := by ring
      omega)
    rw [this]
    simp [hother]

/-- C7 counterexample: a stream ending with status queued (a non-terminal
backend status) and a response id raises the response-level failure at
once, with zero grace-poll retrievals, even though the very next retrieval
would have reported completed; the claimed poll-once-then-succeed outcome
(one retrieval) does not happen. -/
theorem gracePoll_queued_counterexample :
    handleStreamEndStatus
        { OracleResponse.empty with id := some "resp-1", status := some "queued" }
        [{ OracleResponse.empty with status := some "completed" }] =
      some (0, .error (.responseFailure "Response did not complete: queued")) ∧
    (handleStreamEndStatus
        { OracleResponse.empty with id := some "resp-1", status := some "queued" }
        [{ OracleResponse.empty with status := some "completed" }]).map Prod.fst ≠ some 1 := by
  constructor
  · rfl
  · intro h
    rw [show (handleStreamEndStatus
        { OracleResponse.empty with id := some "resp-1", status := some "queued" }
        [{ OracleResponse.empty with status := some "completed" }]).map Prod.fst =
        some 0 from rfl] at h
    simp at h

/-- C7 amended: after the stream ends, a falsy or completed status passes
through; the bounded grace poll (2 second interval, 60 second cap) runs
only when the response has a truthy id and its status is exactly
in_progress, returning the completed response when one arrives within the
cap and raising the response-level failure only after the poll is
exhausted; any other non-completed status, or a missing id, raises the
response-level failure immediately without polling. -/
theorem gracePoll_only_for_in_progress (resp : OracleResponse)
    (graceTrace : List OracleResponse) :
    (jsTruthy resp.status = false →
      handleStreamEndStatus resp graceTrace = some (0, .ok resp)) ∧
    (resp.status = some "completed" →
      handleStreamEndStatus resp graceTrace = some (0, .ok resp)) ∧
    (∀ s : String, resp.status = some s → s ≠ "" → s ≠ "completed" →
      (s ≠ "in_progress" ∨ jsTruthy resp.id = false) →
      handleStreamEndStatus resp graceTrace =
        some (0, .error (.responseFailure
          ("Response did not complete: " ++ responseFailureDetail resp s)))) ∧
    (∀ (k : Nat) (other completed : OracleResponse),
      resp.status = some "in_progress" → jsTruthy resp.id = true →
      other.status ≠ some "completed" → completed.status = some "completed" →
      GRACE_POLL_INTERVAL_MS * k < GRACE_POLL_MAX_WAIT_MS →
      handleStreamEndStatus resp (List.replicate k other ++ [completed]) =
        some (k + 1, .ok completed)) ∧
    (resp.status = some "in_progress" → jsTruthy resp.id = true →
      handleStreamEndStatus resp
          (List.replicate 30 { OracleResponse.empty with status := some "in_progress" }) =
        some (30, .error (.responseFailure
          ("Response did not complete: " ++ responseFailureDetail resp "in_progress")))) := by
  refine ⟨?_, ?_, ?_, ?_, ?_⟩
  · intro h
    simp [handleStreamEndStatus, h]
  · intro h
    simp [handleStreamEndStatus, h]
  · intro s hst hse hnc hdisj
    have htr : jsTruthy resp.status = true := by simp [jsTruthy, hst, hse]
    have hncmp : ¬ resp.status = some "completed" := by simp [hst]; exact fun hh => hnc hh
    rw [handleStreamEndStatus]
    have hcond : ¬ (¬ jsTruthy resp.status = true ∨ resp.status = some "completed") := by
      push_neg
      exact ⟨by simp [htr], hncmp⟩
    rw [if_neg hcond]
    have hpoll : ¬ (jsTruthy resp.id = true ∧ resp.status = some "in_progress") := by
      rcases hdisj with hd | hd
      · rintro ⟨-, hip⟩
        rw [hst] at hip
        exact hd (Option.some.injEq _ _ ▸ hip.symm ▸ rfl)
      · rintro ⟨hid, -⟩
        rw [hd] at hid
        exact Bool.false_ne_true hid
    rw [if_neg hpoll]
    simp [hncmp, hst]
    exact hnc
  · intro k other completed hip hid hother hcomp hk
    rw [handleStreamEndStatus]
    have hcond : ¬ (¬ jsTruthy resp.status = true ∨ resp.status = some "completed") := by
      push_neg
      constructor
      · simp [jsTruthy, hip]
      · simp [hip]
    rw [if_neg hcond]
    rw [if_pos ⟨hid, hip⟩]
    rw [gracePollLoop_replicate other completed hother hcomp k 0 (by omega)]
    simp [hcomp]
  · intro hip hid
    rw [handleStreamEndStatus]
    have hcond : ¬ (¬ jsTruthy resp.status = true ∨ resp.status = some "completed") := by
      push_neg
      constructor
      · simp [jsTruthy, hip]
      · simp [hip]
    rw [if_neg hcond]
    rw [if_pos ⟨hid, hip⟩]
    have hloop : gracePollLoop 0
        (List.replicate 30 { OracleResponse.empty with status := some "in_progress" }) =
        some (30, none) := by rfl
    rw [hloop]
    simp [hip]

/-- C7 witness: an in_progress stream end with an id polls twice past
non-completed retrievals and returns the third, completed one. -/
theorem gracePoll_only_for_in_progress_witness :
    handleStreamEndStatus
        { OracleResponse.empty with id := some "resp-1", status := some "in_progress" }
        (List.replicate 2 { OracleResponse.empty with status := some "in_progress" } ++
          [{ OracleResponse.empty with status := some "completed" }]) =
      some (3, .ok { OracleResponse.empty with status := some "completed" }) :=
  (gracePoll_only_for_in_progress
      { OracleResponse.empty with id := some "resp-1", status := some "in_progress" }
      (List.replicate 2 { OracleResponse.empty with status := some "in_progress" } ++
        [{ OracleResponse.empty with status := some "completed" }])).2.2.2.1 2
    { OracleResponse.empty with status := some "in_progress" }
    { OracleResponse.empty with status := some "completed" }
    rfl rfl (by decide) rfl (by decide)

/-- The per-event deadline check of the streaming loop is the first match of
the expiry predicate over the event arrival times. -/
theorem firstExpiredEventTime_eq_find (runStart timeoutMs : Nat) (ts : List Nat) :
    firstExpiredEventTime runStart timeoutMs ts =
      ts.find? (fun t => timeoutExceededAt runStart timeoutMs t) := by
  induction ts with
  | nil => rfl
  | cons t ts ih =>
    rw [firstExpiredEventTime, List.find?_cons]
    by_cases h : timeoutExceededAt runStart timeoutMs t = true
    · simp [h]
    · simp only [Bool.not_eq_true] at h
      simp [h, ih]

/-- C3 counterexample: with a 100 ms deadline, a stream that delivers an
event at 90 ms and then stalls until its next suspension point at 1000 ms
raises client-timeout at 1000 ms, not at the full configured deadline of
100 ms; the raise happens strictly later than the deadline. -/
theorem deadline_raise_after_stall_counterexample :
    runStreamingPhase 0 100
        { eventTimes := [90, 1000], endTime := 1001, finalTime := 1002,
          finalResp := OracleResponse.empty } =
      .error (.transport .clientTimeout "Timed out waiting for API response.", 1000) ∧
    (1000 : Nat) ≠ 0 + 100 := ⟨rfl, by decide⟩

/-- C3 amended: expiry is checked at every suspension point of the
streaming loop (each event arrival, the stream end, the finalResponse
resolution) against the absolute threshold runStart plus timeoutMs fixed at
dispatch, so the run raises client-timeout exactly when some suspension
point is at or past the deadline and it raises at the first such point
(which can be later than the deadline itself when the stream stalls); any
raised error is located at a suspension point at or past the deadline; and
the background poll loop checks the same kind of absolute deadline both
before and after each sleep, raising client-timeout without any further
retrieval. -/
theorem deadline_checked_at_suspension_points (runStart timeoutMs : Nat) (tr : StreamTrace) :
    runStreamingPhase runStart timeoutMs tr =
      (match (tr.eventTimes ++ [tr.endTime, tr.finalTime]).find?
          (fun t => timeoutExceededAt runStart timeoutMs t) with
        | some t0 => .error (.transport .clientTimeout "Timed out waiting for API response.", t0)
        | none => .ok (tr.finalResp, tr.finalTime)) ∧
    (∀ (t0 : Nat) (e : OracleError),
      runStreamingPhase runStart timeoutMs tr = .error (e, t0) →
      runStart + timeoutMs ≤ t0 ∧
      (t0 ∈ tr.eventTimes ∨ t0 = tr.endTime ∨ t0 = tr.finalTime)) ∧
    (∀ (maxW elapsed : Nat) (resp : OracleResponse) (trace : List (List RetrieveOutcome)),
      (resp.status = some "in_progress" ∨ resp.status = some "queued") →
      maxW ≤ elapsed →
      pollBackgroundResponse maxW elapsed resp trace =
        some { retrievals := 0, retryDelays := [], elapsedAfter := elapsed,
               result := .error (.transport .clientTimeout
                 "Timed out waiting for API background response to finish.") }) ∧
    (∀ (maxW elapsed : Nat) (resp : OracleResponse) (trace : List (List RetrieveOutcome)),
      (resp.status = some "in_progress" ∨ resp.status = some "queued") →
      elapsed < maxW → maxW ≤ elapsed + BACKGROUND_POLL_INTERVAL_MS →
      pollBackgroundResponse maxW elapsed resp trace =
        some { retrievals := 0, retryDelays := [],
               elapsedAfter := elapsed + BACKGROUND_POLL_INTERVAL_MS,
               result := .error (.transport .clientTimeout
                 "Timed out waiting for API background response to finish.") }) := by
  have hmain : runStreamingPhase runStart timeoutMs tr =
      (match (tr.eventTimes ++ [tr.endTime, tr.finalTime]).find?
          (fun t => timeoutExceededAt runStart timeoutMs t) with
        | some t0 => .error (.transport .clientTimeout "Timed out waiting for API response.", t0)
        | none => .ok (tr.finalResp, tr.finalTime)) := by
    rw [runStreamingPhase, firstExpiredEventTime_eq_find]
    cases hf : (tr.eventTimes).find? (fun t => timeoutExceededAt runStart timeoutMs t) with
    | some t0 => simp [List.find?_append, hf]
    | none =>
      by_cases h1 : timeoutExceededAt runStart timeoutMs tr.endTime = true
      · simp [List.find?_append, hf, List.find?_cons, h1]
      · simp only [Bool.not_eq_true] at h1
        by_cases h2 : timeoutExceededAt runStart timeoutMs tr.finalTime = true
        · simp [List.find?_append, hf, List.find?_cons, h1, h2]
        · simp only [Bool.not_eq_true] at h2
          simp [List.find?_append, hf, List.find?_cons, h1, h2]
  refine ⟨hmain, ?_, ?_, ?_⟩
  · intro t0 e h
    rw [hmain] at h
    cases hf : (tr.eventTimes ++ [tr.endTime, tr.finalTime]).find?
        (fun t => timeoutExceededAt runStart timeoutMs t) with
    | none => rw [hf] at h; simp at h
    | some t1 =>
      rw [hf] at h
      simp only [Except.error.injEq, Prod.mk.injEq] at h
      obtain ⟨-, ht⟩ := h
      subst ht
      have hp := List.find?_some hf
      have hm := List.mem_of_find?_eq_some hf
      simp only [timeoutExceededAt, decide_eq_true_eq] at hp
      refine ⟨hp, ?_⟩
      rw [List.mem_append] at hm
      rcases hm with hm | hm
      · exact Or.inl hm
      · simp at hm
        rcases hm with hm | hm
        · exact Or.inr (Or.inl hm)
        · exact Or.inr (Or.inr hm)
  · intro maxW elapsed resp trace hs hle
    rw [pollBackgroundResponse]
    rcases hs with hs | hs <;> simp [hs, hle]
  · intro maxW elapsed resp trace hs hlt hle
    rw [pollBackgroundResponse]
    have hnl : ¬ maxW ≤ elapsed := by omega
    rcases hs with hs | hs <;> simp [hs, hnl, hle]

/-- C3 witness: an in-progress poll whose clock already passed the deadline
raises client-timeout at the pre-sleep check with no retrieval. -/
theorem deadline_checked_at_suspension_points_witness :
    pollBackgroundResponse 100 150
        { OracleResponse.empty with status := some "in_progress" } [] =
      some { retrievals := 0, retryDelays := [], elapsedAfter := 150,
             result := .error (.transport .clientTimeout
               "Timed out waiting for API background response to finish.") } :=
  (deadline_checked_at_suspension_points 0 0
      { eventTimes := [], endTime := 0, finalTime := 0,
        finalResp := OracleResponse.empty }).2.2.1 100 150
    { OracleResponse.empty with status := some "in_progress" } [] (Or.inl rfl) (by decide)
